import Mathlib

/-!
Verification of the PDF-conversion service in `mainpdf.py`.

The service exposes two operations:
* `parse_pdf_to_markdown`: download a PDF, write it to the fixed scratch
  path `/tmp/temp.pdf`, hand the file to the external LlamaParse client,
  delete the scratch file, and return the per-page Markdown.
* `convert_pdf_to_png`: validate the zoom factor, download a PDF, and then
  attempt a rasterization pipeline (fitz document open, per-page pixmap,
  PNG encoding, base64 data URLs).

A decisive fact about the module: its only imports are `os`, `requests`,
`fastapi`, `pydantic`, `llama_parse` and `dotenv`, yet the image-conversion
handler uses the names `io` (line 105), `fitz` (lines 109-110), `Image`
(line 116) and `base64` (line 122), none of which is ever bound.  By Python
semantics, every request that passes the zoom check and receives a
status-200 download raises `NameError` at line 105 — which sits outside the
`try:` block — so the exception escapes the handler and the hosting
framework answers with a generic 500.  Even the `try:` block's own first
statement, `fitz.open(...)` at line 109, would raise `NameError` before any
document is opened.  The rasterization loop at lines 114-129 is therefore
unreachable and the operation can never return a success payload.  The
embedding below models this faithfully: the post-download branch of the
handler is the escaped `NameError`, and the try-block body fails at the
unbound `fitz` name regardless of its inputs.

External collaborators (the HTTP client `requests.get` and the LlamaParse
client) are modelled as components of an environment record `Env`; the
control flow of the two Python functions is translated line by line over
that environment.  Each operation additionally returns the ordered list of
observable side effects (HTTP requests, file writes, file removals, parser
invocations) so that claims about which effects do or do not occur can be
stated.
-/

namespace PureClaim

/-- The result of `requests.get`: a status code and the body bytes
(`response.status_code` and `response.content` in the source). -/
structure HttpResponse where
  status_code : Nat
  content : List Nat
deriving Repr, DecidableEq

/-- Observable side effects of the two operations, in execution order.
`P` is the (abstract) type of an in-memory fitz page object. -/
inductive Effect (P : Type) where
  /-- `requests.get(url)` was issued. -/
  | httpGet (url : String) : Effect P
  /-- `open(path, "wb"); f.write(content)` was performed. -/
  | fileWrite (path : String) (content : List Nat) : Effect P
  /-- `os.remove(path)` was performed. -/
  | fileRemove (path : String) : Effect P
  /-- `parser.get_json_result(path)` (the LlamaParse call) was issued. -/
  | parseCall (path : String) : Effect P
  /-- `fitz.open(stream=..., filetype="pdf")` was performed on `content`.
  The module's text names this action at line 109, but since `fitz` is
  unbound it can never actually be performed; the effect constructor
  exists so that theorems can state its absence from every trace. -/
  | openDoc (content : List Nat) : Effect P
deriving Repr, DecidableEq

/-- Whether an effect touches the file system (a write or a removal). -/
def Effect.isFileEffect {P : Type} : Effect P → Bool
  | .fileWrite _ _ => true
  | .fileRemove _ => true
  | _ => false

/-- The external collaborators of the service, as pure functions:
* `httpGet` models `requests.get`;
* `fitzOpen` models what `fitz.open(stream=..., filetype="pdf")` would
  answer (the document's ordered page list, or the message of a raised
  exception) — the module's code names this collaborator but, the name
  `fitz` being unbound, never actually consults it;
* `renderPng` models what `page.get_pixmap` / `Image.frombytes` /
  `img.save(..., format='PNG')` would answer for one page at one zoom —
  likewise never actually consulted, the names being unbound;
* `parseMarkdown` models the LlamaParse `get_json_result` call applied to
  the scratch file's content (the downloaded bytes): the per-page Markdown
  strings (`json_result[0]["pages"]`), or the raised exception. -/
structure Env (P : Type) where
  httpGet : String → HttpResponse
  fitzOpen : List Nat → Except String (List P)
  renderPng : P → Int → Except String (List Nat)
  parseMarkdown : List Nat → Except String (List String)

instance {ε α : Type} [DecidableEq ε] [DecidableEq α] :
    DecidableEq (Except ε α) := fun a b =>
  match a, b with
  | .error a, .error b => decidable_of_iff (a = b) (by simp)
  | .error _, .ok _ => isFalse (by simp)
  | .ok _, .error _ => isFalse (by simp)
  | .ok a, .ok b => decidable_of_iff (a = b) (by simp)

/-- The fixed scratch path `temp_pdf_path = "/tmp/temp.pdf"`. -/
def temp_pdf_path : String := "/tmp/temp.pdf"

/-- The message of the `NameError` raised at line 105, where
`io.BytesIO(response.content)` evaluates the unbound name `io` (the module
never imports it).  Python renders the message with quotes around the
name; the quotes are omitted here. -/
def nameErrorIo : String := "NameError: name io is not defined"

/-- The message of the `NameError` that the first statement of the `try:`
block, `fitz.open(...)` at line 109, raises by evaluating the unbound name
`fitz` (the module never imports it).  Python renders the message with
quotes around the name; the quotes are omitted here. -/
def nameErrorFitz : String := "NameError: name fitz is not defined"

/-- One element of the `images` array that the response of
`convert_pdf_to_png` would carry: `{"page_number": ..., "data_url": ...}`
(lines 126-129). -/
structure RenderedImage where
  page_number : Nat
  data_url : String
deriving Repr, DecidableEq

/-- The success payload of `convert_pdf_to_png`. -/
structure PngResponse where
  message : String
  images : List RenderedImage
deriving Repr, DecidableEq

/-- The success payload of the `/parse-pdf-to-markdown/` endpoint. -/
structure MdResponse where
  message : String
  markdown_pages : List String
deriving Repr, DecidableEq

/-- A FastAPI handler outcome: a JSON payload, an `HTTPException` with a
status code and a detail string, or an exception that escaped the handler
(which the hosting framework converts into a generic 500 response; the
payload records the exception's message). -/
inductive ApiResult (α : Type) where
  | ok : α → ApiResult α
  | httpError (status_code : Nat) (detail : String) : ApiResult α
  | unhandled (msg : String) : ApiResult α
deriving Repr, DecidableEq

/-- The body of the `try:` block of `convert_pdf_to_png` (lines 107-130),
as invoked directly with document bytes and a zoom value.  Its first
statement, `doc = fitz.open(stream=pdf_data, filetype="pdf")`, evaluates
the unbound name `fitz` and raises `NameError` before any document is
opened, regardless of `content` and `zoom`; the page loop below it (lines
114-129) is unreachable. -/
def rasterize {P : Type} (_env : Env P) (_content : List Nat) (_zoom : Int) :
    Except String (List RenderedImage) :=
  .error nameErrorFitz

/-- The `/convert-pdf-to-png/` handler: validate the zoom level, download
the PDF, and then reach line 105, `pdf_data = io.BytesIO(response.content)`,
which evaluates the unbound name `io` and raises `NameError`.  Line 105
sits outside the `try:` block, so the exception escapes the handler and
the `except` clause at line 136 never runs: past a successful download the
handler always fails unhandled, and neither the success branch nor the
render-error 500 branch of the source text is reachable.  Returns the
handler outcome together with the ordered list of side effects
performed. -/
def convert_pdf_to_png {P : Type} (env : Env P) (pdf_url : String) (zoom : Int) :
    ApiResult PngResponse × List (Effect P) :=
  if zoom < 1 ∨ zoom > 10 then
    (.httpError 400 "Zoom level must be between 1 and 10.", [])
  else
    let response := env.httpGet pdf_url
    if response.status_code ≠ 200 then
      (.httpError 400 "Failed to download the PDF. Please check the URL.",
       [.httpGet pdf_url])
    else
      (.unhandled nameErrorIo, [.httpGet pdf_url])

/-- The function `parse_pdf_to_markdown`: download the PDF (raising on a
non-200 status), write the bytes to the fixed scratch path, invoke the
LlamaParse client on that file, remove the scratch file, and return the
per-page Markdown.  This path uses only names the module actually imports.
Note the removal happens only after a successful parser call: an exception
from the parser propagates before `os.remove` runs.  Returns the result
together with the ordered list of side effects. -/
def parse_pdf_to_markdown {P : Type} (env : Env P) (pdf_url : String) :
    Except String (List String) × List (Effect P) :=
  let response := env.httpGet pdf_url
  if response.status_code ≠ 200 then
    (.error ("Failed to download PDF. Status code: " ++
       toString response.status_code),
     [.httpGet pdf_url])
  else
    match env.parseMarkdown response.content with
    | .error e =>
        (.error e,
         [.httpGet pdf_url, .fileWrite temp_pdf_path response.content,
          .parseCall temp_pdf_path])
    | .ok pages =>
        (.ok pages,
         [.httpGet pdf_url, .fileWrite temp_pdf_path response.content,
          .parseCall temp_pdf_path, .fileRemove temp_pdf_path])

/-- The `/parse-pdf-to-markdown/` handler: wrap `parse_pdf_to_markdown`,
converting any exception into a 500 `HTTPException`. -/
def parse_pdf {P : Type} (env : Env P) (pdf_url : String) :
    ApiResult MdResponse × List (Effect P) :=
  match parse_pdf_to_markdown env pdf_url with
  | (.ok pages, tr) =>
      (.ok { message := "Parsing successful", markdown_pages := pages }, tr)
  | (.error e, tr) => (.httpError 500 e, tr)

/-! ### Concrete environments used to evaluate the model -/

/-- A well-behaved environment over `P := Nat`: every download succeeds
with status 200.  The `fitzOpen` and `renderPng` components describe a
three-page document whose pages render, but the module's code can never
consult them, the names `fitz` and `Image` being unbound. -/
def envA : Env Nat where
  httpGet := fun _ => { status_code := 200, content := [1, 2, 3] }
  fitzOpen := fun _ => .ok [10, 20, 30]
  renderPng := fun p _ => .ok [p]
  parseMarkdown := fun _ => .ok ["page one"]

/-- An environment whose downloads answer with status 201 (a 2xx success
code that is not 200). -/
def env201 : Env Nat where
  httpGet := fun _ => { status_code := 201, content := [7] }
  fitzOpen := fun _ => .ok []
  renderPng := fun p _ => .ok [p]
  parseMarkdown := fun _ => .ok []

/-- An environment whose downloads answer with status 404. -/
def env404 : Env Nat where
  httpGet := fun _ => { status_code := 404, content := [] }
  fitzOpen := fun _ => .ok []
  renderPng := fun p _ => .ok [p]
  parseMarkdown := fun _ => .ok []

/-- An environment in which the LlamaParse call raises. -/
def envParseFail : Env Nat where
  httpGet := fun _ => { status_code := 200, content := [5] }
  fitzOpen := fun _ => .ok []
  renderPng := fun p _ => .ok [p]
  parseMarkdown := fun _ => .error "parse failed"

/-- An environment describing a valid document with zero pages (a
`fitzOpen` answering the empty page list), downloaded with status 200. -/
def envEmptyDoc : Env Nat where
  httpGet := fun _ => { status_code := 200, content := [1] }
  fitzOpen := fun _ => .ok []
  renderPng := fun p _ => .ok [p]
  parseMarkdown := fun _ => .ok []

/-! ### Helper lemmas -/

/-- No branch of `convert_pdf_to_png` performs a file-system effect. -/
theorem convert_pdf_to_png_no_file_effects {P : Type} (env : Env P)
    (pdf_url : String) (zoom : Int) :
    ∀ e ∈ (convert_pdf_to_png env pdf_url zoom).snd, e.isFileEffect = false := by
  simp only [convert_pdf_to_png]
  split
  · simp
  · split <;> simp [Effect.isFileEffect]

/-! ### Claims -/

/-- Claim C1 (code bug): the claim describes the module's evident intent,
but the code cannot realize it.  For every zoom in `[1,10]` and every
status-200 download, line 105 evaluates the unbound name `io`, raises
`NameError` outside the `try:` block, and the handler fails unhandled: the
operation never returns a list of `RenderedImage`s, let alone one per page
with contiguous numbering. -/
theorem C1_conversion_never_returns_pages {P : Type} (env : Env P)
    (url : String) (zoom : Int)
    (hz1 : 1 ≤ zoom) (hz2 : zoom ≤ 10)
    (hs : (env.httpGet url).status_code = 200) :
    (convert_pdf_to_png env url zoom).fst = .unhandled nameErrorIo ∧
    ∀ imgs, (convert_pdf_to_png env url zoom).fst ≠
      .ok { message := "Conversion successful", images := imgs } := by
  have hz : ¬(zoom < 1 ∨ zoom > 10) := by omega
  exact ⟨by simp [convert_pdf_to_png, if_neg hz, hs],
    fun imgs => by simp [convert_pdf_to_png, if_neg hz, hs]⟩

/-- Witness for C1 at a concrete environment with a successful download. -/
theorem C1_witness :
    (convert_pdf_to_png envA "u" 2).fst = .unhandled nameErrorIo ∧
    ∀ imgs, (convert_pdf_to_png envA "u" 2).fst ≠
      .ok { message := "Conversion successful", images := imgs } :=
  C1_conversion_never_returns_pages envA "u" 2 (by decide) (by decide) rfl

/-- Claim C2: a request with zoom outside `[1,10]` is rejected with a 400
error and produces no side effect at all; in particular no HTTP request to
the source URL is issued.  The zoom check at lines 97-98 precedes
`requests.get` and precedes every unbound name. -/
theorem C2_invalid_zoom_rejected_before_download {P : Type} (env : Env P)
    (url : String) (zoom : Int) (h : zoom < 1 ∨ zoom > 10) :
    convert_pdf_to_png env url zoom =
      (.httpError 400 "Zoom level must be between 1 and 10.", []) := by
  simp [convert_pdf_to_png, if_pos h]

/-- Witness for C2 at zoom 11: the 400 error with an empty effect trace. -/
theorem C2_witness :
    convert_pdf_to_png envA "u" 11 =
      (.httpError 400 "Zoom level must be between 1 and 10.", []) :=
  C2_invalid_zoom_rejected_before_download envA "u" 11 (Or.inr (by decide))

/-- Claim C3 (code bug): the claim describes atomic all-or-nothing page
rendering, but no page ever renders in this module: with a valid zoom and
a status-200 download the handler raises `NameError` at line 105 before
the `try:` block (and `fitz` is also unbound at line 109), so no document
is ever opened, the per-page-failure scenario is unreachable, and no list
of images — partial or otherwise — is ever returned. -/
theorem C3_rendering_unreachable {P : Type} (env : Env P) (url : String)
    (zoom : Int) (hz1 : 1 ≤ zoom) (hz2 : zoom ≤ 10)
    (hs : (env.httpGet url).status_code = 200) :
    (convert_pdf_to_png env url zoom).fst = .unhandled nameErrorIo ∧
    (∀ content, Effect.openDoc content ∉ (convert_pdf_to_png env url zoom).snd) ∧
    ∀ resp, (convert_pdf_to_png env url zoom).fst ≠ .ok resp := by
  have hz : ¬(zoom < 1 ∨ zoom > 10) := by omega
  refine ⟨by simp [convert_pdf_to_png, if_neg hz, hs],
    fun content => by simp [convert_pdf_to_png, if_neg hz, hs],
    fun resp => by simp [convert_pdf_to_png, if_neg hz, hs]⟩

/-- Witness for C3 at a concrete environment with a successful download. -/
theorem C3_witness :
    (convert_pdf_to_png envA "u" 2).fst = .unhandled nameErrorIo ∧
    (∀ content, Effect.openDoc content ∉ (convert_pdf_to_png envA "u" 2).snd) ∧
    ∀ resp, (convert_pdf_to_png envA "u" 2).fst ≠ .ok resp :=
  C3_rendering_unreachable envA "u" 2 (by decide) (by decide) rfl

/-- Claim C4 counterexample: in an environment where the download succeeds
but the LlamaParse call raises, the invocation reaches the parser call
(the scratch file is written and the parser invoked), yet no
`os.remove` of the scratch file ever happens: the claim's raise-path
deletion does not hold.  The source removes the file only after a
successful `get_json_result`, with no `try`/`finally` around the call. -/
theorem C4_counterexample :
    (parse_pdf_to_markdown envParseFail "u").fst = .error "parse failed" ∧
    Effect.fileWrite temp_pdf_path [5] ∈ (parse_pdf_to_markdown envParseFail "u").snd ∧
    Effect.parseCall temp_pdf_path ∈ (parse_pdf_to_markdown envParseFail "u").snd ∧
    Effect.fileRemove temp_pdf_path ∉ (parse_pdf_to_markdown envParseFail "u").snd := by
  decide

/-- Claim C4 (amended): when the operation reaches the external parser
call, the scratch file is deleted immediately after the call only on the
successful return path; if the call raises, the exception propagates
before `os.remove` and the scratch file is not deleted. -/
theorem C4_amended_scratch_file_lifecycle {P : Type} (env : Env P)
    (url : String) (hs : (env.httpGet url).status_code = 200) :
    (∀ pages, env.parseMarkdown (env.httpGet url).content = .ok pages →
        (parse_pdf_to_markdown env url).snd =
          [.httpGet url, .fileWrite temp_pdf_path (env.httpGet url).content,
           .parseCall temp_pdf_path, .fileRemove temp_pdf_path]) ∧
    (∀ e, env.parseMarkdown (env.httpGet url).content = .error e →
        (parse_pdf_to_markdown env url).snd =
          [.httpGet url, .fileWrite temp_pdf_path (env.httpGet url).content,
           .parseCall temp_pdf_path] ∧
        Effect.fileRemove temp_pdf_path ∉ (parse_pdf_to_markdown env url).snd) := by
  refine ⟨fun pages hp => ?_, fun e hp => ⟨?_, ?_⟩⟩ <;>
    simp [parse_pdf_to_markdown, hs, hp, Effect.fileRemove.injEq]

/-- Witness for the amended C4: the successful path removes the scratch
file right after the parser call. -/
theorem C4_amended_witness :
    (parse_pdf_to_markdown envA "u").snd =
      ([.httpGet "u", .fileWrite temp_pdf_path [1, 2, 3],
        .parseCall temp_pdf_path, .fileRemove temp_pdf_path] : List (Effect Nat)) :=
  (C4_amended_scratch_file_lifecycle envA "u" rfl).1 ["page one"] rfl

/-- Claim C5 counterexample: a response with status 201 is a 2xx success,
yet both download sites treat it as a failure (the source tests
`status_code != 200`, not "non-2xx"); moreover the image-conversion
path's error detail is a fixed string that does not carry the observed
status code. -/
theorem C5_counterexample :
    (env201.httpGet "u").status_code = 201 ∧ 200 ≤ 201 ∧ 201 < 300 ∧
    (parse_pdf_to_markdown env201 "u").fst =
      .error "Failed to download PDF. Status code: 201" ∧
    (convert_pdf_to_png env201 "u" 2).fst =
      .httpError 400 "Failed to download the PDF. Please check the URL." := by
  decide

/-- Claim C5 (amended): both download sites fail exactly when the status
code differs from 200 (so 2xx codes other than 200 are also rejected); on
failure the Markdown path's error message carries the observed status code
while the image path reports a fixed message without it; on a status-200
response the Markdown path passes the body bytes on to the parser stage,
while the image path then raises `NameError` at line 105 (the unbound
name `io`) before any further processing of the bytes. -/
theorem C5_amended_download_gate {P : Type} (env : Env P) (url : String)
    (zoom : Int) (hz1 : 1 ≤ zoom) (hz2 : zoom ≤ 10) :
    ((env.httpGet url).status_code ≠ 200 →
      (parse_pdf_to_markdown env url).fst =
          .error ("Failed to download PDF. Status code: " ++
            toString (env.httpGet url).status_code) ∧
        (convert_pdf_to_png env url zoom).fst =
          .httpError 400 "Failed to download the PDF. Please check the URL.") ∧
    ((env.httpGet url).status_code = 200 →
      (parse_pdf_to_markdown env url).fst =
          env.parseMarkdown (env.httpGet url).content ∧
        (convert_pdf_to_png env url zoom).fst = .unhandled nameErrorIo) := by
  have hz : ¬(zoom < 1 ∨ zoom > 10) := by omega
  constructor
  · intro hne
    constructor
    · simp [parse_pdf_to_markdown, if_pos hne]
    · simp [convert_pdf_to_png, if_neg hz, if_pos hne]
  · intro hs
    constructor
    · simp only [parse_pdf_to_markdown, hs]
      cases h : env.parseMarkdown (env.httpGet url).content <;> simp [h]
    · simp [convert_pdf_to_png, if_neg hz, hs]

/-- Witness for the amended C5 at status 404 with zoom 2. -/
theorem C5_amended_witness :
    (parse_pdf_to_markdown env404 "u").fst =
        .error ("Failed to download PDF. Status code: " ++
          toString (env404.httpGet "u").status_code) ∧
      (convert_pdf_to_png env404 "u" 2).fst =
        .httpError 400 "Failed to download the PDF. Please check the URL." :=
  (C5_amended_download_gate env404 "u" 2 (by decide) (by decide)).1 (by decide)

/-- Claim C6: if the source URL answers with a non-2xx status on the
Markdown path, the operation fails and its effect trace is the HTTP
request alone: no scratch file is written, no parser call is issued, and
no document is opened. -/
theorem C6_non2xx_no_scratch_no_parse {P : Type} (env : Env P) (url : String)
    (h : ¬(200 ≤ (env.httpGet url).status_code ∧ (env.httpGet url).status_code < 300)) :
    (∃ e, (parse_pdf_to_markdown env url).fst = .error e) ∧
    (parse_pdf_to_markdown env url).snd = [Effect.httpGet url] := by
  have hne : (env.httpGet url).status_code ≠ 200 := by
    intro hs
    exact h (by rw [hs]; exact ⟨le_refl 200, by norm_num⟩)
  exact ⟨⟨"Failed to download PDF. Status code: " ++
      toString (env.httpGet url).status_code,
      by simp [parse_pdf_to_markdown, if_pos hne]⟩,
    by simp [parse_pdf_to_markdown, if_pos hne]⟩

/-- Witness for C6 at a 404 response. -/
theorem C6_witness :
    (∃ e, (parse_pdf_to_markdown env404 "u").fst = .error e) ∧
    (parse_pdf_to_markdown env404 "u").snd = [Effect.httpGet "u"] :=
  C6_non2xx_no_scratch_no_parse env404 "u" (by decide)

/-- Claim C7 (code bug): the claim speaks of the format of every produced
image, but the operation can never produce one: on every input — any zoom,
any download outcome — the handler returns an error (a 400, or the escaped
`NameError` from line 105), never a success payload, because the names
`io`, `fitz`, `Image` and `base64` are all unbound in the module. -/
theorem C7_no_image_ever_produced {P : Type} (env : Env P) (url : String)
    (zoom : Int) (resp : PngResponse) :
    (convert_pdf_to_png env url zoom).fst ≠ .ok resp := by
  by_cases hz : zoom < 1 ∨ zoom > 10
  · simp [convert_pdf_to_png, if_pos hz]
  · by_cases hs : (env.httpGet url).status_code = 200
    · simp [convert_pdf_to_png, if_neg hz, hs]
    · simp [convert_pdf_to_png, if_neg hz, if_pos hs]

/-- Claim C8 counterexample: invoked directly with zoom 11 — outside
`[1,10]` — the rasterization routine does not fail with any
`InvalidZoomError`: it fails with the `NameError` from the unbound name
`fitz`, exactly as it does at the in-range zoom 2.  Its failure is
zoom-independent, so no defense-in-depth zoom validation exists in the
routine (nor does any `InvalidZoomError` exist anywhere in the source). -/
theorem C8_counterexample :
    ((11 : Int) < 1 ∨ (11 : Int) > 10) ∧
    rasterize envA [] 11 = .error nameErrorFitz ∧
    rasterize envA [] 2 = .error nameErrorFitz :=
  ⟨by decide, rfl, rfl⟩

/-- Claim C8 (amended): the rasterization routine performs no zoom
validation of its own: at any zoom, in or out of `[1,10]`, it behaves
identically, failing at its first statement with the `NameError` from the
unbound name `fitz`; the only zoom check in the module is the HTTP
handler's, performed once before the download. -/
theorem C8_amended_no_zoom_validation {P : Type} (env : Env P)
    (url : String) (content : List Nat) (zoom zoom2 : Int)
    (hz : zoom < 1 ∨ zoom > 10) :
    rasterize env content zoom = .error nameErrorFitz ∧
    rasterize env content zoom = rasterize env content zoom2 ∧
    (convert_pdf_to_png env url zoom).fst =
      .httpError 400 "Zoom level must be between 1 and 10." := by
  refine ⟨rfl, rfl, ?_⟩
  simp [convert_pdf_to_png, if_pos hz]

/-- Witness for the amended C8 at zoom 11 against zoom 2. -/
theorem C8_amended_witness :
    rasterize envA [] 11 = .error nameErrorFitz ∧
    rasterize envA [] 11 = rasterize envA [] 2 ∧
    (convert_pdf_to_png envA "u" 11).fst =
      .httpError 400 "Zoom level must be between 1 and 10." :=
  C8_amended_no_zoom_validation envA "u" [] 11 2 (Or.inr (by decide))

/-- Claim C9 (code bug): the claim promises byte-identical PNG payloads
across two runs, but the operation produces no PNG payload at all: with a
valid zoom and status-200 downloads, both runs fail with the same escaped
`NameError` from line 105, and neither run performs any file-system
effect (the source is indeed not modified — but only because nothing past
the download executes). -/
theorem C9_identical_runs_but_no_payload {P : Type} (env1 env2 : Env P)
    (url1 url2 : String) (zoom : Int)
    (hz1 : 1 ≤ zoom) (hz2 : zoom ≤ 10)
    (hs1 : (env1.httpGet url1).status_code = 200)
    (hs2 : (env2.httpGet url2).status_code = 200) :
    (convert_pdf_to_png env1 url1 zoom).fst =
      (convert_pdf_to_png env2 url2 zoom).fst ∧
    (∀ e ∈ (convert_pdf_to_png env1 url1 zoom).snd, e.isFileEffect = false) ∧
    (convert_pdf_to_png env1 url1 zoom).fst = .unhandled nameErrorIo := by
  have hz : ¬(zoom < 1 ∨ zoom > 10) := by omega
  refine ⟨?_, convert_pdf_to_png_no_file_effects env1 url1 zoom, ?_⟩ <;>
    simp [convert_pdf_to_png, if_neg hz, hs1, hs2]

/-- Witness for C9: two runs of the same environment on different URLs. -/
theorem C9_witness :
    (convert_pdf_to_png envA "u" 2).fst = (convert_pdf_to_png envA "v" 2).fst ∧
    (∀ e ∈ (convert_pdf_to_png envA "u" 2).snd, e.isFileEffect = false) ∧
    (convert_pdf_to_png envA "u" 2).fst = .unhandled nameErrorIo :=
  C9_identical_runs_but_no_payload envA envA "u" "v" 2
    (by decide) (by decide) rfl rfl

/-- Claim C10 (code bug): even for a zero-page document (a `fitzOpen`
answering the empty page list) downloaded with status 200 at a zoom in
`[1,10]`, the operation does not return the success message with an empty
image list: line 105 raises `NameError` before the document could even be
opened, and the handler fails unhandled. -/
theorem C10_zero_page_doc_still_fails {P : Type} (env : Env P)
    (url : String) (zoom : Int)
    (hz1 : 1 ≤ zoom) (hz2 : zoom ≤ 10)
    (hs : (env.httpGet url).status_code = 200)
    (_hopen : env.fitzOpen (env.httpGet url).content = .ok ([] : List P)) :
    (convert_pdf_to_png env url zoom).fst = .unhandled nameErrorIo ∧
    (convert_pdf_to_png env url zoom).fst ≠
      .ok { message := "Conversion successful", images := [] } := by
  have hz : ¬(zoom < 1 ∨ zoom > 10) := by omega
  exact ⟨by simp [convert_pdf_to_png, if_neg hz, hs],
    by simp [convert_pdf_to_png, if_neg hz, hs]⟩

/-- Witness for C10 at a concrete zero-page document. -/
theorem C10_witness :
    (convert_pdf_to_png envEmptyDoc "u" 2).fst = .unhandled nameErrorIo ∧
    (convert_pdf_to_png envEmptyDoc "u" 2).fst ≠
      .ok { message := "Conversion successful", images := [] } :=
  C10_zero_page_doc_still_fails envEmptyDoc "u" 2 (by decide) (by decide) rfl rfl

end PureClaim
